import Mathlib

/-!
Verification of the anki-flashcard-maker pipeline.

This file gives a shallow embedding of the card-generation pipeline
(`src/utils.py`, `src/openai_api.py`, `src/download_audio.py`,
`src/line_processing.py`, `src/anki_exporter.py`) and proves the
specification's testable properties about it.  Network calls (the
enrichment service, the pronunciation lookup and the speech synthesis)
are abstracted as oracle functions inside an `Env` record; the audio
side effects performed through them are recorded in an explicit effect
trace so that temporal and filesystem claims can be stated.
-/

/-- Character-wise model of Python `str.lower()`. -/
def pyLower (s : String) : String := ⟨s.data.map Char.toLower⟩

/-- Character-wise model of Python `str.upper()`. -/
def pyUpper (s : String) : String := ⟨s.data.map Char.toUpper⟩

/-- Code-point count of a string, modelling Python `len`. -/
def pyLen (s : String) : Nat := s.data.length

/-- Model of Python slicing `s[:n]`. -/
def pyTake (s : String) (n : Nat) : String := ⟨s.data.take n⟩

/-- Model of Python slicing `s[n:]`. -/
def pyDrop (s : String) (n : Nat) : String := ⟨s.data.drop n⟩

/-- Model of Python `str.strip()`: drop whitespace from both ends. -/
def pyStrip (s : String) : String :=
  ⟨((s.data.dropWhile Char.isWhitespace).reverse.dropWhile Char.isWhitespace).reverse⟩

/-- Model of Python `s.replace(a, r)` for a one-character pattern `a`. -/
def replaceChar (a : Char) (r : List Char) (s : String) : String :=
  ⟨s.data.flatMap (fun c => if c = a then r else [c])⟩

/-- Model of Python `s.startswith(p)`. -/
def pyStartsWith (s p : String) : Bool := List.isPrefixOf p.data s.data

/-- Model of Python `s.endswith(p)`. -/
def pyEndsWith (s p : String) : Bool := List.isSuffixOf p.data s.data

/-- Splitting a character list on a separator character; consecutive
separators produce empty segments and the empty list gives one empty
segment, as in Python `str.split(sep)`. -/
def splitOnChar (sep : Char) (l : List Char) : List (List Char) :=
  l.foldr (fun c acc =>
    match acc with
    | cur :: rest => if c = sep then [] :: cur :: rest else (c :: cur) :: rest
    | [] => [[c]]) [[]]

/-- Model of Python `s.split(sep)` for a one-character separator. -/
def pySplit (sep : Char) (s : String) : List String :=
  (splitOnChar sep s.data).map String.mk

/-- Model of `utils.capitalize_string`: first letter uppercased, rest lowercased;
empty input gives the empty string, a one-character string is uppercased whole. -/
def capitalize_string (text : String) : String :=
  if text = "" then ""
  else if 1 < pyLen text then pyUpper (pyTake text 1) ++ pyLower (pyDrop text 1)
  else pyUpper text

/-- Model of `utils.sanitize_filename`: replace spaces with underscores. -/
def sanitize_filename (filename : String) : String := replaceChar ' ' ['_'] filename

/-- Python truthiness of an optional string: `None` and `""` are falsy. -/
def pyTruthyOpt : Option String → Bool
  | none => false
  | some s => s ≠ ""

/-- Python f-string interpolation of an optional string: `None` prints as "None". -/
def pyOptStr : Option String → String
  | none => "None"
  | some s => s

/-- Model of Python `sep.join(parts)`. -/
def pyJoin (sep : String) : List String → String
  | [] => ""
  | [x] => x
  | x :: y :: xs => x ++ sep ++ pyJoin sep (y :: xs)

/-- Substring test on character lists: true when `n` occurs inside `h`. -/
def listSub (n : List Char) : List Char → Bool
  | [] => n.isEmpty
  | c :: t => (List.isPrefixOf n (c :: t)) || listSub n t

/-- Model of Python `needle in haystack` on strings (substring containment). -/
def strContains (haystack needle : String) : Bool := listSub needle.data haystack.data

/-- One bilingual context example, as produced by the reply parser. -/
structure ContextPair where
  german : String
  english : String
deriving DecidableEq, Repr

/-- Model of `line_processing.Card`.  `audio_filename` is the value computed in
`Card.__init__` from the `audio_source` argument. -/
structure Card where
  id : Nat
  source : String
  translation : List String
  context : List ContextPair
  gender : String
  plural : String
  input_type : String
  tip : String
  audio_filename : Option String
deriving DecidableEq, Repr

/-- Model of `Card.__init__`'s audio-filename derivation (line 56 of
`line_processing.py`): lowercase the successful source text, sanitize it and
append the fixed suffix. -/
def cardAudioFilename (audio_source : String) : String :=
  sanitize_filename (pyLower audio_source) ++ "_pronunciation.mp3"

/-- Model of `Card.__init__`: the audio filename is derived from `audio_source`
when that is truthy, otherwise it is absent. -/
def mkCard (card_id : Nat) (source : String) (translation : List String)
    (context : List ContextPair) (gender plural input_type tip : String)
    (audio_source : Option String) : Card :=
  { id := card_id, source := source, translation := translation, context := context,
    gender := gender, plural := plural, input_type := input_type, tip := tip,
    audio_filename :=
      if pyTruthyOpt audio_source then some (cardAudioFilename (audio_source.getD ""))
      else none }

/-- Parsed result of `OpenAIAPI._parse_analysis_response`. -/
structure Analysis where
  type : String
  translation : List String
  gender : String
  plural : String
  context : List ContextPair
  tip : String
deriving DecidableEq, Repr

/-- Normalization applied to reply keys: strip, lowercase, spaces to
underscores, drop asterisks. -/
def normKey (k : String) : String :=
  replaceChar '*' [] (replaceChar ' ' ['_'] (pyLower (pyStrip k)))

/-- Fold step of the reply parser: a line containing a colon contributes the
normalized key and the trimmed remainder after the first colon. -/
def parseKVLine (acc : List (String × String)) (line : String) : List (String × String) :=
  match pySplit ':' line with
  | [] => acc
  | [_] => acc
  | k :: rest => acc ++ [(normKey k, pyStrip (pyJoin ":" rest))]

/-- The key/value pairs parsed from a reply, in insertion order. -/
def parseKV (response_text : String) : List (String × String) :=
  (pySplit (Char.ofNat 10) response_text).foldl parseKVLine []

/-- Model of Python `dict.get(k)`: the last binding for `k` wins. -/
def dget (d : List (String × String)) (k : String) : Option String :=
  (d.reverse.find? (fun p => p.1 == k)).map (fun p => p.2)

/-- Model of Python `dict.get(k, default)`. -/
def dgetD (d : List (String × String)) (k v : String) : String := (dget d k).getD v

/-- Model of `OpenAIAPI._parse_analysis_response` (lines 239-278 of
`openai_api.py`). -/
def parse_analysis_response (response_text : String) : Analysis :=
  let d := parseKV response_text
  let t0 := pyLower (dgetD d "type" "word")
  let input_type :=
    if strContains t0 "sentence" then "sentence"
    else if strContains t0 "expression" then "expression"
    else "word"
  let context :=
    if dgetD d "german_context" "N/A" ≠ "N/A" then
      [ContextPair.mk (dgetD d "german_context" "N/A") (dgetD d "english_context" "N/A")]
    else []
  let tip0 := dgetD d "tip" "N/A"
  { type := input_type,
    translation := [dgetD d "translation" "N/A"],
    gender := if dget d "gender" ≠ some "N/A" then dgetD d "gender" "N/A" else "",
    plural := if dget d "plural" ≠ some "N/A" then dgetD d "plural" "N/A" else "",
    context := context,
    tip := if tip0 = "N/A" then "" else tip0 }

/-- Oracles for the three external services used by `process_line`:
`analyze` models `OpenAIAPI.analyze_german_content` (`none` models a raised
exception, `some` a parsed reply), `forvo` models the boolean result of
`download_pronunciation`, and `tts` models the boolean result of
`OpenAIAPI.generate_speech`. -/
structure Env where
  analyze : String → Option Analysis
  forvo : String → Bool
  tts : String → Bool

/-- Audio side effects performed while processing one term: a pronunciation
lookup or a speech-synthesis call, each with the query text and its outcome. -/
inductive Effect where
  | forvoCall (query : String) (ok : Bool)
  | ttsCall (query : String) (ok : Bool)
deriving DecidableEq, Repr

/-- The source text computed for a Word term (lines 129-140 of
`line_processing.py`): capitalize the input, then, when it starts with the
reported gender article and a space (compared lowercased), drop the article
and the space, strip and re-capitalize. -/
def wordSourceText (line gender : String) : String :=
  let st := capitalize_string line
  if gender ≠ "" ∧ pyStartsWith (pyLower st) (pyLower gender ++ " ") then
    capitalize_string (pyStrip (pyDrop st (pyLen gender + 1)))
  else st

/-- The audio strategy for a Word term (lines 142-169 of
`line_processing.py`): gendered pronunciation lookup first, then the bare
word, then speech synthesis; the first component is `audio_text_success`,
the second the effects performed in order. -/
def wordAudio (env : Env) (gender st : String) : Option String × List Effect :=
  let step1 : Option String × List Effect :=
    if gender ≠ "" ∧ gender ≠ "N/A" then
      (if env.forvo (gender ++ " " ++ st) then some (gender ++ " " ++ st) else none,
       [Effect.forvoCall (gender ++ " " ++ st) (env.forvo (gender ++ " " ++ st))])
    else (none, [])
  if pyTruthyOpt step1.1 then step1
  else
    if env.forvo st then (some st, step1.2 ++ [Effect.forvoCall st true])
    else
      if env.tts st then (some st, step1.2 ++ [Effect.forvoCall st false, Effect.ttsCall st true])
      else (step1.1, step1.2 ++ [Effect.forvoCall st false, Effect.ttsCall st false])

/-- Model of `line_processing.process_line`: classify and enrich the term,
drop it when the translation carries the "N/A" sentinel, resolve audio
according to the kind, and assemble the `Card`.  `none` from `analyze`
models the caught exception path returning `None`. -/
def process_line (env : Env) (line : String) (index : Nat) : Option Card × List Effect :=
  match env.analyze line with
  | none => (none, [])
  | some details =>
    let input_type := details.type
    if "N/A" ∈ details.translation then (none, [])
    else
      let tip := details.tip
      if input_type = "word" then
        let st := wordSourceText line details.gender
        let r := wordAudio env details.gender st
        (some (mkCard index st details.translation details.context details.gender
          details.plural input_type tip r.1), r.2)
      else
        let audio_query := pyStrip line
        let ok := env.tts audio_query
        (some (mkCard index line details.translation details.context details.gender
          "" input_type tip (if ok then some audio_query else none)),
         [Effect.ttsCall audio_query ok])

/-- One progress event (the callback invocation with current index, total
count and term text) or the completion of one term's processing. -/
inductive Ev where
  | progress (i total : Nat) (term : String)
  | done (i : Nat) (ok : Bool)
deriving DecidableEq, Repr

/-- The observable outcome of a batch run: the event trace, the collected
cards and the audio effects, in order. -/
structure RunResult where
  trace : List Ev
  cards : List Card
  effects : List Effect
deriving DecidableEq, Repr

/-- The loop of `line_processing.generate_cards` starting at position `i`:
the progress callback fires before each term is processed, successful terms
contribute their `Card` in order, and all audio effects are concatenated. -/
def generateRunFrom (env : Env) (total : Nat) : Nat → List String → RunResult
  | _, [] => ⟨[], [], []⟩
  | i, l :: ls =>
    let r := process_line env l i
    let rest := generateRunFrom env total (i + 1) ls
    ⟨Ev.progress i total l :: Ev.done i r.1.isSome :: rest.trace,
     (match r.1 with
      | some c => c :: rest.cards
      | none => rest.cards),
     r.2 ++ rest.effects⟩

/-- Model of `line_processing.generate_cards` with its progress callback and
audio effects made observable. -/
def generateRun (env : Env) (lines_array : List String) : RunResult :=
  generateRunFrom env lines_array.length 0 lines_array

/-- The list of cards returned by `line_processing.generate_cards`. -/
def generate_cards (env : Env) (lines_array : List String) : List Card :=
  (generateRun env lines_array).cards

/-- Model of `line_processing.cleanup_previous_audio` on the audio directory,
represented as the list of file names it contains: every ".mp3" file is
deleted. -/
def cleanup_previous_audio (fs : List String) : List String :=
  fs.filter (fun f => ¬ pyEndsWith f ".mp3")

/-- The file written into the audio directory by one successful audio effect:
`AudioDownloader.download_pronunciation` saves `sanitize_filename(word)` plus
the suffix (line 67 of `download_audio.py`), while both speech-synthesis call
sites save `sanitize_filename(query.lower())` plus the suffix (lines 163 and
181 of `line_processing.py`). -/
def effectFile : Effect → Option String
  | Effect.forvoCall q true => some (sanitize_filename q ++ "_pronunciation.mp3")
  | Effect.forvoCall _ false => none
  | Effect.ttsCall q true => some (sanitize_filename (pyLower q) ++ "_pronunciation.mp3")
  | Effect.ttsCall _ false => none

/-- The audio files written by a list of effects. -/
def writtenFiles (effs : List Effect) : List String := effs.filterMap effectFile

/-- Model of `line_processing.process_lines` restricted to its effect on the
audio directory: clean up previous audio, then run the batch, whose successful
audio effects add their files. -/
def process_lines (env : Env) (lines_array : List String) (fs : List String) :
    List String × List Card :=
  let fs1 := cleanup_previous_audio fs
  let r := generateRun env lines_array
  (fs1 ++ writtenFiles r.effects, r.cards)

/-- Model of the stored filename in `AudioDownloader.download_pronunciation`
(line 67 of `download_audio.py`): the query sanitized but not lowercased. -/
def forvoSavedFilename (word : String) : String :=
  sanitize_filename word ++ "_pronunciation.mp3"

/-- Model of the module-level `download_pronunciation` wrapper (lines 93-116
of `download_audio.py`): a missing (or falsy, that is empty) "API_KEY"
environment variable yields `false` without reaching the downloader, whose
outcome is abstracted as `inner`. -/
def download_pronunciation (envv : String → Option String) (inner : String → Bool)
    (word : String) : Bool :=
  if pyTruthyOpt (envv "API_KEY") then inner word else false

/-- Model of `OpenAIAPI.__init__` (lines 13-21 of `openai_api.py`): a missing
(or falsy, that is empty) "OPENAI_API_KEY" environment variable raises;
otherwise the key is kept. -/
def OpenAIAPI_init (envv : String → Option String) : Except String String :=
  if pyTruthyOpt (envv "OPENAI_API_KEY") then Except.ok ((envv "OPENAI_API_KEY").getD "")
  else Except.error
    "OPENAI_API_KEY not found in environment variables. Please add it to your .env file."

/-- The front and back fields written for one card by
`line_processing.write_cards_to_file` (lines 211-279): the word branch always
interpolates the audio filename into a sound tag, the expression and sentence
branches add the tag only when the filename is truthy, and a non-empty tip is
appended as a final back part. -/
def export_card_fields (card : Card) : String × String :=
  let translation := pyJoin ", " card.translation
  let parts : List String × List String :=
    if card.input_type = "word" then
      let gender_display :=
        if card.gender ≠ "" ∧ card.gender ≠ "N/A" then "(" ++ card.gender ++ ") " else ""
      let plural_display :=
        if card.plural ≠ "" ∧ card.plural ≠ "N/A" then " (pl: " ++ card.plural ++ ")" else ""
      let sound_field := "[sound:" ++ pyOptStr card.audio_filename ++ "]"
      let front0 := [sound_field ++ " " ++ gender_display ++ card.source ++ plural_display]
      let back0 := [translation]
      match card.context with
      | [] => (front0, back0)
      | p :: _ =>
        if p.german ≠ "N/A" then
          (front0 ++ ["<i>" ++ p.german ++ "</i>"], back0 ++ ["<i>" ++ p.english ++ "</i>"])
        else (front0, back0)
    else if card.input_type = "expression" then
      let front0 :=
        (if pyTruthyOpt card.audio_filename then
          ["[sound:" ++ card.audio_filename.getD "" ++ "]"] else []) ++ [card.source]
      let back0 := [translation]
      match card.context with
      | [] => (front0, back0)
      | p :: _ =>
        if p.german ≠ "N/A" then
          (front0 ++ ["<i>" ++ p.german ++ "</i>"], back0 ++ ["<i>" ++ p.english ++ "</i>"])
        else (front0, back0)
    else
      ((if pyTruthyOpt card.audio_filename then
          ["[sound:" ++ card.audio_filename.getD "" ++ "]"] else []) ++ [card.source],
       [translation])
  let back_parts :=
    if card.tip ≠ "" then parts.2 ++ ["<br>💡 <i>" ++ card.tip ++ "</i>"] else parts.2
  (pyJoin "<br>" parts.1, pyJoin "<br>" back_parts)

/-- The four note fields produced by `anki_exporter._generate_card_fields`
(lines 97-157): question, answer, tip and the is-word flag. -/
structure PkgFields where
  front : String
  back : String
  tip : String
  isWord : String
deriving DecidableEq, Repr

/-- Model of `anki_exporter._generate_card_fields`: same three-branch
rendering as the export writer, except that the word branch emits the sound
tag only when the filename is truthy and the tip is returned as a separate
field instead of being appended to the back. -/
def generate_card_fields (card : Card) : PkgFields :=
  let translation := pyJoin ", " card.translation
  let is_word := if card.input_type = "word" then "1" else ""
  let tip := if card.tip ≠ "" then card.tip else ""
  let parts : List String × List String :=
    if card.input_type = "word" then
      let gender_display :=
        if card.gender ≠ "" ∧ card.gender ≠ "N/A" then "(" ++ card.gender ++ ") " else ""
      let plural_display :=
        if card.plural ≠ "" ∧ card.plural ≠ "N/A" then " (pl: " ++ card.plural ++ ")" else ""
      let sound_field :=
        if pyTruthyOpt card.audio_filename then
          "[sound:" ++ card.audio_filename.getD "" ++ "]"
        else ""
      let front0 := [sound_field ++ " " ++ gender_display ++ card.source ++ plural_display]
      let back0 := [translation]
      match card.context with
      | [] => (front0, back0)
      | p :: _ =>
        if p.german ≠ "N/A" then
          (front0 ++ ["<i>" ++ p.german ++ "</i>"], back0 ++ ["<i>" ++ p.english ++ "</i>"])
        else (front0, back0)
    else if card.input_type = "expression" then
      let front0 :=
        (if pyTruthyOpt card.audio_filename then
          ["[sound:" ++ card.audio_filename.getD "" ++ "]"] else []) ++ [card.source]
      let back0 := [translation]
      match card.context with
      | [] => (front0, back0)
      | p :: _ =>
        if p.german ≠ "N/A" then
          (front0 ++ ["<i>" ++ p.german ++ "</i>"], back0 ++ ["<i>" ++ p.english ++ "</i>"])
        else (front0, back0)
    else
      ((if pyTruthyOpt card.audio_filename then
          ["[sound:" ++ card.audio_filename.getD "" ++ "]"] else []) ++ [card.source],
       [translation])
  ⟨pyJoin "<br>" parts.1, pyJoin "<br>" parts.2, tip, is_word⟩

/-- The gender decoration shared by both renderings. -/
def genderDisplay (card : Card) : String :=
  if card.gender ≠ "" ∧ card.gender ≠ "N/A" then "(" ++ card.gender ++ ") " else ""

/-- The plural decoration shared by both renderings. -/
def pluralDisplay (card : Card) : String :=
  if card.plural ≠ "" ∧ card.plural ≠ "N/A" then " (pl: " ++ card.plural ++ ")" else ""

/-- The source-language context sentence as it is appended to the front of a
word or expression card, when present and not the sentinel. -/
def ctxFrontSuffix (card : Card) : String :=
  match card.context with
  | [] => ""
  | p :: _ => if p.german ≠ "N/A" then "<br><i>" ++ p.german ++ "</i>" else ""

/-- The sound-free content of the front field: source text with gender and
plural decorations and the context sentence for words, source text with the
context sentence for expressions, bare source text for sentences. -/
def frontCore (card : Card) : String :=
  if card.input_type = "word" then
    genderDisplay card ++ card.source ++ pluralDisplay card ++ ctxFrontSuffix card
  else if card.input_type = "expression" then card.source ++ ctxFrontSuffix card
  else card.source

/-- The sound portion of the front field in the text export. -/
def exportSoundPart (card : Card) : String :=
  if card.input_type = "word" then "[sound:" ++ pyOptStr card.audio_filename ++ "] "
  else if pyTruthyOpt card.audio_filename then
    "[sound:" ++ card.audio_filename.getD "" ++ "]<br>"
  else ""

/-- The sound portion of the front field in the deck package. -/
def pkgSoundPart (card : Card) : String :=
  if card.input_type = "word" then
    (if pyTruthyOpt card.audio_filename then
      "[sound:" ++ card.audio_filename.getD "" ++ "]" else "") ++ " "
  else if pyTruthyOpt card.audio_filename then
    "[sound:" ++ card.audio_filename.getD "" ++ "]<br>"
  else ""

/-- The tip annotation that the text export appends to the back field. -/
def tipSuffix (card : Card) : String :=
  if card.tip ≠ "" then "<br><br>💡 <i>" ++ card.tip ++ "</i>" else ""

/-- Joining the tip part after the back parts concatenates the two markup
segments. -/
theorem br_tip_append (t : String) :
    "<br>" ++ ("<br>💡 <i>" ++ t) = "<br><br>💡 <i>" ++ t := by
  rw [← String.append_assoc]; rfl

/-- Merging adjacent markup literals in a front field. -/
theorem br_i_append (t : String) :
    "<br>" ++ ("<i>" ++ t) = "<br><i>" ++ t := by
  rw [← String.append_assoc]; rfl

/-- Merging adjacent markup literals in a back field with context and tip. -/
theorem ci_br_append (t : String) :
    "</i><br>" ++ ("<br>💡 <i>" ++ t) = "</i><br><br>💡 <i>" ++ t := by
  rw [← String.append_assoc]; rfl

/-- Merging adjacent markup literals in a back field with tip suffix. -/
theorem ci_append (t : String) :
    "</i>" ++ ("<br><br>💡 <i>" ++ t) = "</i><br><br>💡 <i>" ++ t := by
  rw [← String.append_assoc]; rfl

/-- Merging the plural decoration's closing parenthesis with a following
context sentence. -/
theorem paren_br_i_append (t : String) :
    ")<br>" ++ ("<i>" ++ t) = ")<br><i>" ++ t := by
  rw [← String.append_assoc]; rfl

/-- Merging the plural decoration's closing parenthesis with a following
context sentence, grouped the other way. -/
theorem paren_bri_append (t : String) :
    ")" ++ ("<br><i>" ++ t) = ")<br><i>" ++ t := by
  rw [← String.append_assoc]; rfl

set_option maxHeartbeats 2000000 in
/-- C1: for every Card, the plain-text export writer and the deck-package
field builder agree field for field: both front fields are the same
sound-free content behind their respective sound portions, the export back
field is the package back field with the tip annotation appended, and the
two sound portions differ only for a word card without an audio file. -/
theorem rendering_equivalence (c : Card) :
    (export_card_fields c).1 = exportSoundPart c ++ frontCore c
    ∧ (generate_card_fields c).front = pkgSoundPart c ++ frontCore c
    ∧ (export_card_fields c).2 = (generate_card_fields c).back ++ tipSuffix c
    ∧ (exportSoundPart c = pkgSoundPart c
       ∨ (c.input_type = "word" ∧ pyTruthyOpt c.audio_filename = false)) := by
  obtain ⟨id, source, translation, context, gender, plural, input_type, tip, audio⟩ := c
  simp only [export_card_fields, generate_card_fields, exportSoundPart, pkgSoundPart,
    frontCore, genderDisplay, pluralDisplay, ctxFrontSuffix, tipSuffix, pyOptStr, pyTruthyOpt]
  cases context with
  | nil =>
    cases audio with
    | none =>
      split_ifs <;>
        simp_all [pyJoin, String.append_assoc, String.empty_append, String.append_empty, pyOptStr, br_tip_append, br_i_append, ci_br_append, ci_append, paren_br_i_append, paren_bri_append]
    | some f =>
      split_ifs <;>
        simp_all [pyJoin, String.append_assoc, String.empty_append, String.append_empty, pyOptStr, br_tip_append, br_i_append, ci_br_append, ci_append, paren_br_i_append, paren_bri_append]
  | cons p rest =>
    by_cases hpg : p.german = "N/A" <;> cases audio with
    | none =>
      split_ifs <;>
        simp_all [pyJoin, String.append_assoc, String.empty_append, String.append_empty, pyOptStr, br_tip_append, br_i_append, ci_br_append, ci_append, paren_br_i_append, paren_bri_append]
    | some f =>
      split_ifs <;>
        simp_all [pyJoin, String.append_assoc, String.empty_append, String.append_empty, pyOptStr, br_tip_append, br_i_append, ci_br_append, ci_append, paren_br_i_append, paren_bri_append]

/-- A card produced by `process_line` carries the index it was called with. -/
theorem process_line_id (env : Env) (line : String) (i : Nat) (c : Card)
    (h : (process_line env line i).1 = some c) : c.id = i := by
  unfold process_line at h
  cases ha : env.analyze line with
  | none => rw [ha] at h; simp at h
  | some d =>
    rw [ha] at h
    simp only [] at h
    split_ifs at h
    all_goals (rw [← Option.some.inj h]; rfl)

/-- The batch loop returns at most one card per remaining term. -/
theorem runFrom_cards_length (env : Env) (total : Nat) :
    ∀ (ls : List String) (i : Nat),
      (generateRunFrom env total i ls).cards.length ≤ ls.length := by
  intro ls
  induction ls with
  | nil => intro i; simp [generateRunFrom]
  | cons l ls ih =>
    intro i
    simp only [generateRunFrom]
    cases h : (process_line env l i).1 with
    | none => simpa using Nat.le_succ_of_le (ih (i + 1))
    | some c => simpa using ih (i + 1)

/-- Every card in the batch loop's output comes from the term at the position
recorded in its `id`. -/
theorem runFrom_cards_mem (env : Env) (total : Nat) :
    ∀ (ls : List String) (i : Nat) (c : Card),
      c ∈ (generateRunFrom env total i ls).cards →
      ∃ j t, ls[j]? = some t ∧ c.id = i + j ∧ (process_line env t c.id).1 = some c := by
  intro ls
  induction ls with
  | nil => intro i c hc; simp [generateRunFrom] at hc
  | cons l ls ih =>
    intro i c hc
    simp only [generateRunFrom] at hc
    cases h : (process_line env l i).1 with
    | none =>
      rw [h] at hc
      obtain ⟨j, t, hj, hid, hp⟩ := ih (i + 1) c hc
      exact ⟨j + 1, t, by simpa using hj, by omega, hp⟩
    | some c0 =>
      rw [h] at hc
      rcases List.mem_cons.mp hc with h' | hc'
      · subst h'
        have hid := process_line_id env l i c h
        exact ⟨0, l, by simp, by omega, by rw [hid]; exact h⟩
      · obtain ⟨j, t, hj, hid, hp⟩ := ih (i + 1) c hc'
        exact ⟨j + 1, t, by simpa using hj, by omega, hp⟩

/-- Cards in the batch loop's output have ids bounded below by the start
index and strictly increasing. -/
theorem runFrom_cards_sorted (env : Env) (total : Nat) :
    ∀ (ls : List String) (i : Nat),
      (∀ c ∈ (generateRunFrom env total i ls).cards, i ≤ c.id)
      ∧ ((generateRunFrom env total i ls).cards.map Card.id).Pairwise (· < ·) := by
  intro ls
  induction ls with
  | nil => intro i; simp [generateRunFrom]
  | cons l ls ih =>
    intro i
    simp only [generateRunFrom]
    cases h : (process_line env l i).1 with
    | none =>
      refine ⟨fun c hc => ?_, (ih (i + 1)).2⟩
      have := (ih (i + 1)).1 c (by simpa using hc)
      omega
    | some c0 =>
      have hid := process_line_id env l i c0 h
      constructor
      · intro c hc
        rcases List.mem_cons.mp (by simpa using hc) with h' | hc'
        · rw [h', hid]
        · have := (ih (i + 1)).1 c hc'
          omega
      · simp only [List.map_cons]
        refine List.pairwise_cons.mpr ⟨?_, (ih (i + 1)).2⟩
        intro x hx
        obtain ⟨c, hc, rfl⟩ := List.mem_map.mp hx
        have := (ih (i + 1)).1 c hc
        omega

/-- C2: the batch orchestrator returns at most one card per input term, the
card ids are strictly increasing in output order, and each card's id is the
zero-based position of its term in the input list: the term found there
processes to exactly that card. -/
theorem cards_preserve_order (env : Env) (lines_array : List String) :
    (generate_cards env lines_array).length ≤ lines_array.length
    ∧ ((generate_cards env lines_array).map Card.id).Pairwise (· < ·)
    ∧ ∀ c ∈ generate_cards env lines_array,
        ∃ t, lines_array[c.id]? = some t ∧ (process_line env t c.id).1 = some c := by
  refine ⟨runFrom_cards_length env lines_array.length lines_array 0,
    (runFrom_cards_sorted env lines_array.length lines_array 0).2, ?_⟩
  intro c hc
  obtain ⟨j, t, hj, hid, hp⟩ :=
    runFrom_cards_mem env lines_array.length lines_array 0 c hc
  refine ⟨t, ?_, hp⟩
  rw [hid]
  simpa using hj

/-- Enrichment reply used by the concrete test environments: a Word with a
gender and one translation. -/
def analysisTisch : Analysis := ⟨"word", ["table"], "der", "", [], ""⟩

/-- Concrete test environment: every term analyzes as `analysisTisch`, the
pronunciation lookup succeeds exactly for the bare word "Tisch", and speech
synthesis always fails. -/
def envTisch : Env := ⟨fun _ => some analysisTisch, fun q => q = "Tisch", fun _ => false⟩

/-- The card that `envTisch` produces for the input term "Tisch" at index 0. -/
def tischCard : Card := mkCard 0 "Tisch" ["table"] [] "der" "" "word" "" (some "Tisch")

/-- Witness for C2 at the concrete batch `["Tisch"]`. -/
theorem cards_preserve_order_witness :
    ∃ t, (["Tisch"] : List String)[tischCard.id]? = some t
      ∧ (process_line envTisch t tischCard.id).1 = some tischCard :=
  (cards_preserve_order envTisch ["Tisch"]).2.2 tischCard (by decide)

/-- The progress-callback invocation recorded by an event, if any. -/
def progressOf : Ev → Option (Nat × Nat × String)
  | Ev.progress i total term => some (i, total, term)
  | Ev.done _ _ => none

/-- The batch loop's event trace: for each remaining term, one progress event
followed by that term's completion event. -/
theorem runFrom_trace (env : Env) (total : Nat) :
    ∀ (ls : List String) (i : Nat),
      (generateRunFrom env total i ls).trace
        = (List.enumFrom i ls).flatMap (fun p =>
            [Ev.progress p.1 total p.2, Ev.done p.1 (process_line env p.2 p.1).1.isSome]) := by
  intro ls
  induction ls with
  | nil => intro i; simp [generateRunFrom]
  | cons l ls ih =>
    intro i
    simp only [generateRunFrom, List.enumFrom, List.flatMap_cons, ih (i + 1)]
    rfl

/-- Keeping only the progress events of the batch loop's trace yields one
entry per remaining term, carrying its position, the total and its text. -/
theorem runFrom_trace_progress (env : Env) (total : Nat) :
    ∀ (ls : List String) (i : Nat),
      ((generateRunFrom env total i ls).trace).filterMap progressOf
        = (List.enumFrom i ls).map (fun p => (p.1, total, p.2)) := by
  intro ls
  induction ls with
  | nil => intro i; simp [generateRunFrom]
  | cons l ls ih =>
    intro i
    simp only [generateRunFrom, List.enumFrom, List.filterMap_cons, List.map_cons, ih (i + 1)]
    rfl

/-- C9: the batch run's trace interleaves exactly one progress event per
input term, emitted before that term's completion, carrying the zero-based
index, the total count and the term text; the progress events alone enumerate
the input in order, so their indices are strictly increasing. -/
theorem progress_callback_protocol (env : Env) (lines_array : List String) :
    (generateRun env lines_array).trace
      = lines_array.enum.flatMap (fun p =>
          [Ev.progress p.1 lines_array.length p.2,
           Ev.done p.1 (process_line env p.2 p.1).1.isSome])
    ∧ (generateRun env lines_array).trace.filterMap progressOf
      = lines_array.enum.map (fun p => (p.1, lines_array.length, p.2))
    ∧ (((generateRun env lines_array).trace.filterMap progressOf).map
        (fun e => e.1)).Pairwise (· < ·) := by
  refine ⟨runFrom_trace env lines_array.length lines_array 0,
    runFrom_trace_progress env lines_array.length lines_array 0, ?_⟩
  simp only [generateRun]
  rw [runFrom_trace_progress env lines_array.length lines_array 0]
  rw [List.map_map]
  have : ((fun e => e.1) ∘ fun p => (p.1, lines_array.length, p.2))
      = (Prod.fst : Nat × String → Nat) := rfl
  rw [this, List.enumFrom_map_fst]
  exact List.pairwise_lt_range' 0 lines_array.length

/-- Splitting the input list splits the batch loop's card output, with the
start index shifted by the length of the first part. -/
theorem runFrom_cards_append (env : Env) (total : Nat) :
    ∀ (xs : List String) (i : Nat) (ys : List String),
      (generateRunFrom env total i (xs ++ ys)).cards
        = (generateRunFrom env total i xs).cards
          ++ (generateRunFrom env total (i + xs.length) ys).cards := by
  intro xs
  induction xs with
  | nil => intro i ys; simp [generateRunFrom]
  | cons x xs ih =>
    intro i ys
    simp only [List.cons_append, generateRunFrom]
    have h : i + 1 + xs.length = i + (xs.length + 1) := by omega
    cases (process_line env x i).1 <;>
      simp [List.length_cons, ← h, ih (i + 1)]

/-- C3: a term whose enrichment reply's translation list contains the "N/A"
sentinel produces no card and no audio effects, and a batch containing it
yields exactly the cards of the surrounding terms at their usual indices. -/
theorem sentinel_drops_term (env : Env) (line : String) (d : Analysis)
    (h1 : env.analyze line = some d) (h2 : "N/A" ∈ d.translation) :
    (∀ i, process_line env line i = (none, []))
    ∧ ∀ (total i : Nat) (xs ys : List String),
        (generateRunFrom env total i (xs ++ line :: ys)).cards
          = (generateRunFrom env total i xs).cards
            ++ (generateRunFrom env total (i + xs.length + 1) ys).cards := by
  have hp : ∀ i, process_line env line i = (none, []) := by
    intro i
    unfold process_line
    rw [h1]
    simp [h2]
  refine ⟨hp, ?_⟩
  intro total i xs ys
  rw [runFrom_cards_append env total xs i (line :: ys)]
  simp only [generateRunFrom, hp (i + xs.length)]

/-- Enrichment reply whose translation is the failure sentinel. -/
def analysisNA : Analysis := ⟨"word", ["N/A"], "", "", [], ""⟩

/-- Concrete environment whose enrichment reply is always the sentinel
failure for the term "bad" and a successful word reply otherwise. -/
def envNA : Env :=
  ⟨fun s => if s = "bad" then some analysisNA else some analysisTisch,
   fun _ => true, fun _ => true⟩

/-- Witness for C3 at the concrete batch `["Tisch", "bad", "Tisch"]`. -/
theorem sentinel_drops_term_witness :
    process_line envNA "bad" 0 = (none, [])
    ∧ (generateRunFrom envNA 3 0 (["Tisch"] ++ "bad" :: ["Tisch"])).cards
        = (generateRunFrom envNA 3 0 ["Tisch"]).cards
          ++ (generateRunFrom envNA 3 2 ["Tisch"]).cards :=
  ⟨(sentinel_drops_term envNA "bad" analysisNA (by decide) (by decide)).1 0,
   by
    have h := (sentinel_drops_term envNA "bad" analysisNA (by decide) (by decide)).2 3 0
      ["Tisch"] ["Tisch"]
    simpa using h⟩

/-- C5: for a Word term with a known gender, when the gendered lookup fails
and the bare-word lookup succeeds, the successful audio source is the bare
source text: the term's effects are exactly the failed gendered lookup
followed by the successful bare lookup, the card records the bare text as its
audio source, and speech synthesis is never invoked. -/
theorem bare_word_fallback (env : Env) (line : String) (d : Analysis) (i : Nat)
    (h1 : env.analyze line = some d) (h2 : d.type = "word")
    (h3 : "N/A" ∉ d.translation) (h4 : d.gender ≠ "") (h5 : d.gender ≠ "N/A")
    (h6 : env.forvo (d.gender ++ " " ++ wordSourceText line d.gender) = false)
    (h7 : env.forvo (wordSourceText line d.gender) = true) :
    process_line env line i =
      (some (mkCard i (wordSourceText line d.gender) d.translation d.context d.gender
        d.plural "word" d.tip (some (wordSourceText line d.gender))),
       [Effect.forvoCall (d.gender ++ " " ++ wordSourceText line d.gender) false,
        Effect.forvoCall (wordSourceText line d.gender) true])
    ∧ ∀ q ok, Effect.ttsCall q ok ∉ (process_line env line i).2 := by
  have hmain : process_line env line i =
      (some (mkCard i (wordSourceText line d.gender) d.translation d.context d.gender
        d.plural "word" d.tip (some (wordSourceText line d.gender))),
       [Effect.forvoCall (d.gender ++ " " ++ wordSourceText line d.gender) false,
        Effect.forvoCall (wordSourceText line d.gender) true]) := by
    unfold process_line wordAudio
    rw [h1]
    simp [h2, h3, h4, h5, h6, h7, pyTruthyOpt]
  refine ⟨hmain, ?_⟩
  intro q ok
  rw [hmain]
  simp

/-- Witness for C5 at the concrete term "Tisch" in `envTisch`, whose gendered
lookup "der Tisch" fails and whose bare lookup "Tisch" succeeds. -/
theorem bare_word_fallback_witness :
    process_line envTisch "Tisch" 0 =
      (some (mkCard 0 (wordSourceText "Tisch" analysisTisch.gender) analysisTisch.translation
        analysisTisch.context analysisTisch.gender analysisTisch.plural "word" analysisTisch.tip
        (some (wordSourceText "Tisch" analysisTisch.gender))),
       [Effect.forvoCall (analysisTisch.gender ++ " " ++ wordSourceText "Tisch" analysisTisch.gender) false,
        Effect.forvoCall (wordSourceText "Tisch" analysisTisch.gender) true])
    ∧ ∀ q ok, Effect.ttsCall q ok ∉ (process_line envTisch "Tisch" 0).2 :=
  bare_word_fallback envTisch "Tisch" analysisTisch 0 rfl rfl (by decide) (by decide)
    (by decide) (by decide) (by decide)

/-- Model of `generate_cards`'s client-default path (lines 75-81 of
`line_processing.py`): when no client is passed in, one is constructed from
the environment before the loop starts, so a constructor error precedes any
processing and no run result is produced.  `mk` abstracts building the
service oracles from the key. -/
def generate_cards_entry (envv : String → Option String) (mk : String → Env)
    (client : Option Env) (lines_array : List String) : Except String RunResult :=
  match client with
  | some env => Except.ok (generateRun env lines_array)
  | none => (OpenAIAPI_init envv).map (fun k => generateRun (mk k) lines_array)

/-- When every pronunciation lookup fails, a successfully enriched word term
still yields a card, and a speech-synthesis call on its source text appears
among its effects. -/
theorem process_line_word_tts (env : Env) (line : String) (i : Nat) (d : Analysis)
    (ha : env.analyze line = some d) (h2 : d.type = "word")
    (h3 : "N/A" ∉ d.translation) (hforvo : ∀ q, env.forvo q = false) :
    (process_line env line i).1.isSome = true
    ∧ Effect.ttsCall (wordSourceText line d.gender) (env.tts (wordSourceText line d.gender))
        ∈ (process_line env line i).2 := by
  unfold process_line wordAudio
  rw [ha]
  by_cases hg : d.gender ≠ "" ∧ d.gender ≠ "N/A" <;>
    by_cases htts : env.tts (wordSourceText line d.gender) <;>
      simp [h2, h3, hg, htts, hforvo, pyTruthyOpt]

/-- C7: a missing pronunciation-service key makes every lookup return failure
(without error), so a word term still produces a card and its audio falls
through to a speech-synthesis attempt; a missing enrichment-service key makes
client construction fail outright, so a batch that has to construct its own
client errors before any term is processed. -/
theorem missing_service_keys (envv : String → Option String) :
    (envv "API_KEY" = none →
      (∀ (inner : String → Bool) (w : String),
        download_pronunciation envv inner w = false)
      ∧ ∀ (analyze : String → Option Analysis) (tts inner : String → Bool)
          (line : String) (i : Nat) (d : Analysis),
          analyze line = some d → d.type = "word" → "N/A" ∉ d.translation →
          ((process_line ⟨analyze, download_pronunciation envv inner, tts⟩ line i).1.isSome = true
           ∧ Effect.ttsCall (wordSourceText line d.gender) (tts (wordSourceText line d.gender))
               ∈ (process_line ⟨analyze, download_pronunciation envv inner, tts⟩ line i).2))
    ∧ (envv "OPENAI_API_KEY" = none →
        OpenAIAPI_init envv = Except.error
          "OPENAI_API_KEY not found in environment variables. Please add it to your .env file."
        ∧ ∀ (mk : String → Env) (lines_array : List String),
            generate_cards_entry envv mk none lines_array = Except.error
              "OPENAI_API_KEY not found in environment variables. Please add it to your .env file.") := by
  constructor
  · intro hkey
    have hdp : ∀ (inner : String → Bool) (w : String),
        download_pronunciation envv inner w = false := by
      intro inner w
      unfold download_pronunciation
      rw [hkey]
      rfl
    refine ⟨hdp, ?_⟩
    intro analyze tts inner line i d ha h2 h3
    exact process_line_word_tts ⟨analyze, download_pronunciation envv inner, tts⟩
      line i d ha h2 h3 (hdp inner)
  · intro hkey
    have hinit : OpenAIAPI_init envv = Except.error
        "OPENAI_API_KEY not found in environment variables. Please add it to your .env file." := by
      unfold OpenAIAPI_init
      rw [hkey]
      rfl
    refine ⟨hinit, ?_⟩
    intro mk lines_array
    unfold generate_cards_entry
    rw [hinit]
    rfl

/-- Witness for C7 with an empty environment: the lookup returns failure, the
client constructor errors, and a concrete word term still yields a card after
a speech-synthesis attempt. -/
theorem missing_service_keys_witness :
    download_pronunciation (fun _ => none) (fun _ => true) "Tisch" = false
    ∧ OpenAIAPI_init (fun _ => none) = Except.error
        "OPENAI_API_KEY not found in environment variables. Please add it to your .env file."
    ∧ generate_cards_entry (fun _ => none) (fun _ => envTisch) none ["Tisch"] = Except.error
        "OPENAI_API_KEY not found in environment variables. Please add it to your .env file."
    ∧ ((process_line ⟨fun _ => some analysisTisch,
          download_pronunciation (fun _ => none) (fun _ => true), fun _ => true⟩
          "Tisch" 0).1.isSome = true
       ∧ Effect.ttsCall (wordSourceText "Tisch" analysisTisch.gender) true
           ∈ (process_line ⟨fun _ => some analysisTisch,
                download_pronunciation (fun _ => none) (fun _ => true), fun _ => true⟩
                "Tisch" 0).2) :=
  ⟨((missing_service_keys (fun _ => none)).1 rfl).1 (fun _ => true) "Tisch",
   ((missing_service_keys (fun _ => none)).2 rfl).1,
   ((missing_service_keys (fun _ => none)).2 rfl).2 (fun _ => envTisch) ["Tisch"],
   ((missing_service_keys (fun _ => none)).1 rfl).2 (fun _ => some analysisTisch)
     (fun _ => true) (fun _ => true) "Tisch" 0 analysisTisch rfl rfl (by decide)⟩

/-- C8: cleanup removes every ".mp3" file from the audio directory before the
batch runs, and afterwards every ".mp3" file present was written by this
run's successful audio effects. -/
theorem audio_cleanup (env : Env) (lines_array : List String) (fs : List String) :
    (∀ f ∈ cleanup_previous_audio fs, pyEndsWith f ".mp3" = false)
    ∧ (process_lines env lines_array fs).1
        = cleanup_previous_audio fs ++ writtenFiles (generateRun env lines_array).effects
    ∧ ∀ f ∈ (process_lines env lines_array fs).1,
        pyEndsWith f ".mp3" = true →
        f ∈ writtenFiles (generateRun env lines_array).effects := by
  have h1 : ∀ f ∈ cleanup_previous_audio fs, pyEndsWith f ".mp3" = false := by
    intro f hf
    simp only [cleanup_previous_audio, List.mem_filter] at hf
    simpa using hf.2
  refine ⟨h1, rfl, ?_⟩
  intro f hf hmp3
  rcases List.mem_append.mp hf with hl | hr
  · exact absurd hmp3 (by simp [h1 f hl])
  · exact hr

/-- Witness for C8: after a run of `envNA` on `["Tisch"]` over a directory
holding a stale audio file, the file written by this run's successful lookup
is in the written set. -/
theorem audio_cleanup_witness :
    "der_Tisch_pronunciation.mp3" ∈ writtenFiles (generateRun envNA ["Tisch"]).effects :=
  (audio_cleanup envNA ["Tisch"] ["old_pronunciation.mp3"]).2.2
    "der_Tisch_pronunciation.mp3" (by decide) (by decide)

/-- C4 counterexample: a reply that simply omits the gender and plural keys
parses to the literal "N/A" sentinel in both fields, because the parser's
normalization only fires when the key is present. -/
theorem absent_key_yields_sentinel :
    (parse_analysis_response "Type: word\nTranslation: table").gender = "N/A"
    ∧ (parse_analysis_response "Type: word\nTranslation: table").plural = "N/A" := by
  decide

/-- C4 amended: the parsed tip is never the sentinel, while the parsed gender
(resp. plural) is the sentinel exactly when the reply has no gender (resp.
plural) key: a present sentinel value is normalized to the empty string. -/
theorem sentinel_normalization (response_text : String) :
    (parse_analysis_response response_text).tip ≠ "N/A"
    ∧ ((parse_analysis_response response_text).gender = "N/A"
        ↔ dget (parseKV response_text) "gender" = none)
    ∧ ((parse_analysis_response response_text).plural = "N/A"
        ↔ dget (parseKV response_text) "plural" = none) := by
  refine ⟨?_, ?_, ?_⟩
  · simp only [parse_analysis_response]
    by_cases h : dgetD (parseKV response_text) "tip" "N/A" = "N/A" <;> simp [h]
  · simp only [parse_analysis_response]
    cases hg : dget (parseKV response_text) "gender" with
    | none => simp [dgetD, hg]
    | some v =>
      by_cases hv : v = "N/A" <;> simp [dgetD, hg, hv]
  · simp only [parse_analysis_response]
    cases hg : dget (parseKV response_text) "plural" with
    | none => simp [dgetD, hg]
    | some v =>
      by_cases hv : v = "N/A" <;> simp [dgetD, hg, hv]

/-- C6: the card derives its audio filename from the lowercased successful
query, but the pronunciation downloader stores the file under the sanitized
query without lowercasing, so for the capitalized query "Tisch" the card
records a filename different from the stored one. -/
theorem audio_filename_case_mismatch :
    cardAudioFilename "Tisch" = "tisch_pronunciation.mp3"
    ∧ forvoSavedFilename "Tisch" = "Tisch_pronunciation.mp3"
    ∧ cardAudioFilename "Tisch" ≠ forvoSavedFilename "Tisch" := by
  decide

/-- C10 counterexample: for the input "der  Tisch" (two spaces) with gender
"der", the hypothesis of the claim holds, but the card source text computed
by the code is "Tisch", not the claimed capitalization of the input with the
article and one space removed, which keeps the extra leading space. -/
theorem article_strip_counterexample :
    pyStartsWith (pyLower (capitalize_string "der  Tisch")) (pyLower "der" ++ " ") = true
    ∧ wordSourceText "der  Tisch" "der" = "Tisch"
    ∧ capitalize_string (pyDrop "der  Tisch" (pyLen "der" + 1)) = " tisch"
    ∧ wordSourceText "der  Tisch" "der"
        ≠ capitalize_string (pyDrop "der  Tisch" (pyLen "der" + 1)) := by
  decide

/-- C10 amended: for a Word term whose capitalized input starts with the
reported gender article and a space (compared lowercased), the card's source
text is the capitalized input with the article and separator dropped, trimmed
of surrounding whitespace and re-capitalized; and when the gender is not the
sentinel, the first audio effect is the gendered lookup with the article
re-prefixed to the stripped word. -/
theorem article_strip (env : Env) (line : String) (d : Analysis) (i : Nat)
    (h1 : env.analyze line = some d) (h2 : d.type = "word")
    (h3 : "N/A" ∉ d.translation) (hg : d.gender ≠ "")
    (hpre : pyStartsWith (pyLower (capitalize_string line)) (pyLower d.gender ++ " ") = true) :
    (∀ c, (process_line env line i).1 = some c →
      c.source = capitalize_string (pyStrip (pyDrop (capitalize_string line) (pyLen d.gender + 1))))
    ∧ (d.gender ≠ "N/A" →
        (process_line env line i).2.head? = some (Effect.forvoCall
          (d.gender ++ " " ++
            capitalize_string (pyStrip (pyDrop (capitalize_string line) (pyLen d.gender + 1))))
          (env.forvo (d.gender ++ " " ++
            capitalize_string (pyStrip (pyDrop (capitalize_string line) (pyLen d.gender + 1))))))) := by
  have hst : wordSourceText line d.gender
      = capitalize_string (pyStrip (pyDrop (capitalize_string line) (pyLen d.gender + 1))) := by
    unfold wordSourceText
    simp [hg, hpre]
  constructor
  · intro c hc
    unfold process_line at hc
    rw [h1] at hc
    simp only [h2, h3] at hc
    split_ifs at hc
    rw [← Option.some.inj hc, ← hst]
    rfl
  · intro hgna
    have hcore : (process_line env line i).2.head?
        = some (Effect.forvoCall (d.gender ++ " " ++ wordSourceText line d.gender)
            (env.forvo (d.gender ++ " " ++ wordSourceText line d.gender))) := by
      unfold process_line wordAudio
      rw [h1]
      by_cases hforvo : env.forvo (d.gender ++ " " ++ wordSourceText line d.gender) <;>
        by_cases htts : env.tts (wordSourceText line d.gender) <;>
          simp [h2, h3, hg, hgna, hforvo, htts, pyTruthyOpt] <;>
            (try (split_ifs <;> simp))
    rw [hst] at hcore
    exact hcore

/-- Witness for C10 at the concrete term "der Tisch" in `envTisch`. -/
theorem article_strip_witness :
    tischCard.source
        = capitalize_string (pyStrip (pyDrop (capitalize_string "der Tisch") (pyLen "der" + 1)))
    ∧ (process_line envTisch "der Tisch" 0).2.head? = some (Effect.forvoCall
        ("der" ++ " " ++
          capitalize_string (pyStrip (pyDrop (capitalize_string "der Tisch") (pyLen "der" + 1))))
        (envTisch.forvo ("der" ++ " " ++
          capitalize_string (pyStrip (pyDrop (capitalize_string "der Tisch") (pyLen "der" + 1)))))) :=
  ⟨(article_strip envTisch "der Tisch" analysisTisch 0 rfl rfl (by decide) (by decide)
      (by decide)).1 tischCard (by decide),
   (article_strip envTisch "der Tisch" analysisTisch 0 rfl rfl (by decide) (by decide)
      (by decide)).2 (by decide)⟩
